import Mathlib

/-!
Verification of the M-Pesa STK-push reconciliation core
(`MpesaService` in the repository's service file and `MpesaUtils` in its
utility file) against its natural-language specification.

The TypeScript code is shallowly embedded: each method becomes a pure Lean
function, the process-wide circuit-breaker record becomes an explicit state
value threaded through the functions, the Prisma-backed transaction table
becomes a list of records passed in and returned, and the HTTP / Axios
environment (token endpoint, STK-push endpoint, wall clock) becomes an
explicit environment record.  Thrown `HttpException`s / `Error`s become
`Except` errors.  Wall-clock instants are `Nat` milliseconds since the Unix
epoch.
-/

namespace Mpesa

/-! ## Kernel-friendly string helpers

The embedding works on `String.data` (the underlying `List Char`) with
structurally recursive operations, so that every definition evaluates by
`decide`/`rfl` on concrete inputs. -/

instance {ε α : Type} [DecidableEq ε] [DecidableEq α] : DecidableEq (Except ε α)
  | .ok a, .ok b =>
      if h : a = b then .isTrue (by rw [h]) else .isFalse (by intro hh; cases hh; exact h rfl)
  | .error a, .error b =>
      if h : a = b then .isTrue (by rw [h]) else .isFalse (by intro hh; cases hh; exact h rfl)
  | .ok _, .error _ => .isFalse (by intro h; cases h)
  | .error _, .ok _ => .isFalse (by intro h; cases h)

/-- `s.startsWith pre`, computed structurally on the character lists. -/
def strStartsWith (s pre : String) : Bool :=
  pre.data.isPrefixOf s.data

/-- `s.substring`/`slice`-style drop of the first `n` characters. -/
def strDrop (s : String) (n : Nat) : String :=
  ⟨s.data.drop n⟩

/-- Take the first `n` characters. -/
def strTake (s : String) (n : Nat) : String :=
  ⟨s.data.take n⟩

/-- `s.slice(a, b)` (JavaScript): the characters at positions `a ≤ i < b`. -/
def strSlice (s : String) (a b : Nat) : String :=
  strTake (strDrop s a) (b - a)

/-! ## Circuit breaker (`MpesaService` fields and private methods) -/

/-- `CircuitBreakerState` enum from the service file. -/
inductive CircuitBreakerState where
  | CLOSED
  | OPEN
  | HALF_OPEN
deriving DecidableEq, Repr

/-- `CircuitBreakerStatus` interface: `state`, `failures`, and the two
optional timestamps (`Date` values modelled as epoch milliseconds). -/
structure CircuitBreakerStatus where
  state : CircuitBreakerState
  failures : Nat
  lastFailureTime : Option Nat := none
  nextAttemptTime : Option Nat := none
deriving DecidableEq, Repr

/-- `maxFailures = 5` in the service. -/
def maxFailures : Nat := 5

/-- `resetTimeout = 60000` (ms) in the service. -/
def resetTimeout : Nat := 60000

/-- Initial value of `this.circuitBreaker`: `CLOSED` with `failures: 0` and
both timestamps absent. -/
def initialBreaker : CircuitBreakerStatus :=
  { state := .CLOSED, failures := 0 }

/-- `recordSuccess()`: resets to `CLOSED` with `failures := 0` when the
state is `HALF_OPEN`; otherwise it does nothing. -/
def recordSuccess (cb : CircuitBreakerStatus) : CircuitBreakerStatus :=
  if cb.state = .HALF_OPEN then
    { cb with state := .CLOSED, failures := 0 }
  else
    cb

/-- `recordFailure()` at wall-clock time `now` (ms): increments `failures`,
stamps `lastFailureTime`, and on reaching `maxFailures` opens the breaker
with `nextAttemptTime = now + resetTimeout`. -/
def recordFailure (now : Nat) (cb : CircuitBreakerStatus) : CircuitBreakerStatus :=
  let cb' := { cb with failures := cb.failures + 1, lastFailureTime := some now }
  if cb'.failures ≥ maxFailures then
    { cb' with state := .OPEN, nextAttemptTime := some (now + resetTimeout) }
  else
    cb'

/-- The breaker gate at the top of `initiateStkPush` (the `if` on
`this.circuitBreaker.state === OPEN`): `none` means the call is rejected
(the `HttpException('M-Pesa service temporarily unavailable')` is thrown);
`some cb'` means the call proceeds with breaker `cb'`, which has
transitioned to `HALF_OPEN` when the state was `OPEN` and either
`nextAttemptTime` was unset or `now` has reached it. -/
def breakerGate (now : Nat) (cb : CircuitBreakerStatus) : Option CircuitBreakerStatus :=
  if cb.state = .OPEN then
    match cb.nextAttemptTime with
    | some t =>
        if now < t then none
        else some { cb with state := .HALF_OPEN }
    | none => some { cb with state := .HALF_OPEN }
  else
    some cb

/-! ## Phone-number normalization (`MpesaUtils.formatPhoneNumber`) -/

/-- `phoneNumber.replace(/\D/g, '')`: drop every non-digit character. -/
def cleanDigits (s : String) : String :=
  String.mk (s.toList.filter Char.isDigit)

/-- `MpesaUtils.formatPhoneNumber`.  The thrown
`Error('Invalid phone number format: ...')` becomes an `Except.error`
carrying the same message (the `catch` in the source merely logs and
rethrows).  The `startsWith('+254')` branch is kept although it can never
fire after `\D` stripping. -/
def formatPhoneNumber (phoneNumber : String) : Except String String :=
  let cleaned := cleanDigits phoneNumber
  if strStartsWith cleaned "0" && cleaned.length == 10 then
    .ok ("254" ++ strDrop cleaned 1)
  else if strStartsWith cleaned "254" && cleaned.length == 12 then
    .ok cleaned
  else if strStartsWith cleaned "+254" then
    .ok (strDrop cleaned 1)
  else if cleaned.length == 9 then
    .ok ("254" ++ cleaned)
  else
    .error ("Invalid phone number format: " ++ phoneNumber)

/-! ## Date parsing (`MpesaUtils.parseTransactionDate`)

The JavaScript runtime pieces used by the source are modelled explicitly:
`String.prototype.trim`, `parseInt`, `Number`, and the V8 `Date`
constructor on the ISO strings the code builds. -/

/-- The ECMAScript `StrWhiteSpaceChar` set (WhiteSpace ∪ LineTerminator):
TAB, LF, VT, FF, CR, SP, NBSP, OGHAM SPACE MARK, the ` `–` `
spaces, LINE SEPARATOR, PARAGRAPH SEPARATOR, NARROW NBSP, MMSP,
IDEOGRAPHIC SPACE and the BOM.  This is the set `trim()`, `parseInt` and
`Number` strip. -/
def jsWhitespace (c : Char) : Bool :=
  c = '\u0009' || (c = '\u000a' || (c = '\u000b' || (c = '\u000c' || (
  c = '\u000d' || (c = '\u0020' || (c = '\u00a0' || (c = '\u1680' || (
  c = '\u2000' || (c = '\u2001' || (c = '\u2002' || (c = '\u2003' || (
  c = '\u2004' || (c = '\u2005' || (c = '\u2006' || (c = '\u2007' || (
  c = '\u2008' || (c = '\u2009' || (c = '\u200a' || (c = '\u2028' || (
  c = '\u2029' || (c = '\u202f' || (c = '\u205f' || (c = '\u3000' || (
  c = '\ufeff'))))))))))))))))))))))))

/-- `trim()`: strip the JavaScript whitespace set from both ends. -/
def strTrim (s : String) : String :=
  ⟨((s.data.dropWhile jsWhitespace).reverse.dropWhile jsWhitespace).reverse⟩

/-- Value of a non-empty maximal digit prefix, `none` when the list starts
with a non-digit (or is empty). -/
def digitsPrefixVal (cs : List Char) : Option Nat :=
  let ds := cs.takeWhile Char.isDigit
  if ds.isEmpty then none
  else some (ds.foldl (fun a c => a * 10 + (c.toNat - 48)) 0)

/-- `s` is a non-empty string of decimal digits. -/
def isDigitStr (s : String) : Bool :=
  !s.data.isEmpty && s.data.all Char.isDigit

/-- Numeric value of an all-digit string. -/
def strVal (s : String) : Nat :=
  s.data.foldl (fun a c => a * 10 + (c.toNat - 48)) 0

/-- JavaScript `parseInt(s)` (`none` = `NaN`): skip leading whitespace,
accept an optional sign, then read the maximal decimal-digit prefix.
(The automatic hex mode on `0x` prefixes is modelled as reading the leading
`0`; for every input reachable from `parseTransactionDate` the two readings
lead to the same final result, since a slice that triggers hex mode is
never part of a string the `Date` constructor accepts.) -/
def jsParseIntOpt (s : String) : Option Int :=
  match s.data.dropWhile jsWhitespace with
  | [] => none
  | c :: rest =>
      if c = '-' then (digitsPrefixVal rest).map (fun n => -(n : Int))
      else if c = '+' then (digitsPrefixVal rest).map (fun n => (n : Int))
      else (digitsPrefixVal (c :: rest)).map (fun n => (n : Int))

/-- Numeric value of an all-digit character list. -/
def digitsVal (cs : List Char) : Nat :=
  cs.foldl (fun a c => a * 10 + (c.toNat - 48)) 0

/-- A non-empty run of decimal digits, as a `Nat`. -/
def parseDigitsNat (cs : List Char) : Option Nat :=
  if !cs.isEmpty && cs.all Char.isDigit then some (digitsVal cs) else none

/-- The `ExponentPart` after the `e`/`E`: an optionally signed digit
run. -/
def parseExp (cs : List Char) : Option Int :=
  match cs with
  | [] => none
  | c :: rest =>
      if c = '+' then (parseDigitsNat rest).map (fun n => (n : Int))
      else if c = '-' then (parseDigitsNat rest).map (fun n => -(n : Int))
      else (parseDigitsNat (c :: rest)).map (fun n => (n : Int))

/-- An unsigned decimal mantissa: `digits`, `digits.digits?` or
`.digits`, with at least one digit overall (so `"12."`, `".5"` parse and
`"."` does not).  The value is kept in exact scientific form: the pair
`(m, k)` denotes `m / 10^k`. -/
def parseDecCore (cs : List Char) : Option (Nat × Nat) :=
  let ip := cs.takeWhile Char.isDigit
  let rest := cs.dropWhile Char.isDigit
  match rest with
  | [] => if ip.isEmpty then none else some (digitsVal ip, 0)
  | c :: fp =>
      if c = '.' then
        (if ip.isEmpty && fp.isEmpty then none
         else if fp.all Char.isDigit then
           some (digitsVal ip * 10 ^ fp.length + digitsVal fp, fp.length)
         else none)
      else none

/-- An unsigned decimal literal with an optional exponent part; the pair
`(m, e)` denotes `m · 10^e`. -/
def parseDecWithExp (cs : List Char) : Option (Nat × Int) :=
  let mant := cs.takeWhile (fun c => !(c = 'e' || c = 'E'))
  let rest := cs.dropWhile (fun c => !(c = 'e' || c = 'E'))
  match rest with
  | [] => (parseDecCore mant).map (fun p => (p.1, -(p.2 : Int)))
  | _ :: ex =>
      match parseDecCore mant, parseExp ex with
      | some p, some e => some (p.1, e - (p.2 : Int))
      | _, _ => none

/-- An optionally signed decimal literal, as `(m, e)` denoting
`m · 10^e`. -/
def parseSignedDec (cs : List Char) : Option (Int × Int) :=
  match cs with
  | [] => none
  | c :: rest =>
      if c = '+' then (parseDecWithExp rest).map (fun p => ((p.1 : Int), p.2))
      else if c = '-' then (parseDecWithExp rest).map (fun p => (-(p.1 : Int), p.2))
      else (parseDecWithExp (c :: rest)).map (fun p => ((p.1 : Int), p.2))

/-- Value of one digit in the given radix (hex letters in either case). -/
def radixDigitVal (radix : Nat) (c : Char) : Option Nat :=
  let v :=
    if '0' ≤ c ∧ c ≤ '9' then some (c.toNat - 48)
    else if 'a' ≤ c ∧ c ≤ 'f' then some (c.toNat - 87)
    else if 'A' ≤ c ∧ c ≤ 'F' then some (c.toNat - 55)
    else none
  match v with
  | some d => if d < radix then some d else none
  | none => none

/-- A non-empty digit run in the given radix. -/
def parseRadixNat (radix : Nat) (cs : List Char) : Option Nat :=
  if cs.isEmpty then none
  else
    cs.foldl
      (fun acc c =>
        match acc, radixDigitVal radix c with
        | some a, some d => some (a * radix + d)
        | _, _ => none)
      (some 0)

/-- Does the list start with `0x`/`0X` (or the octal/binary analogues in
`tags`)?  Radix-prefixed literals take no sign in JavaScript. -/
def startsRadix (cs : List Char) (tags : List Char) : Bool :=
  match cs with
  | c1 :: c2 :: _ => c1 = '0' && tags.contains c2
  | _ => false

/-- The body of `Number()` on a trimmed character list: the empty string
is `0`; `0x`/`0o`/`0b` literals are unsigned radix integers; everything
else is an optionally signed decimal literal with optional fraction and
exponent.  The pair `(m, e)` denotes the exact value `m · 10^e`. -/
def parseJsNumber (cs : List Char) : Option (Int × Int) :=
  match cs with
  | [] => some (0, 0)
  | _ =>
      if startsRadix cs ['x', 'X'] then (parseRadixNat 16 (cs.drop 2)).map (fun n => ((n : Int), 0))
      else if startsRadix cs ['o', 'O'] then (parseRadixNat 8 (cs.drop 2)).map (fun n => ((n : Int), 0))
      else if startsRadix cs ['b', 'B'] then (parseRadixNat 2 (cs.drop 2)).map (fun n => ((n : Int), 0))
      else parseSignedDec cs

/-- JavaScript `Number(s)` with the value kept in exact scientific form
`m · 10^e` (all-integer, so everything downstream evaluates by `decide`).
`none` stands for `NaN`, and also for the `Infinity` literals (a trimmed
`Infinity` literal is 8 or 9 characters long, so it can never satisfy the
10-character length check of the date branch this model feeds; the
`Amount`/`Balance` metadata fields that also use this model are never
interpreted further in this development).  The IEEE-754 rounding of the
runtime is not modelled: the value is the literal's exact rational, which
leaves the truncated millisecond value of the date branch unchanged — a
10-character decimal has at most 10 significant digits, so the double's
relative error (≲ 2·2⁻⁵³) is far smaller than the literal's distance to
the nearest unequal multiple of 10⁻⁶ scaled by 1000. -/
def jsNumberSci (s : String) : Option (Int × Int) :=
  parseJsNumber (strTrim s).data

/-- JavaScript `Number(s)` as an exact rational (the ℚ view of
`jsNumberSci`, used for the metadata fields). -/
def jsNumberOpt (s : String) : Option ℚ :=
  (jsNumberSci s).map (fun p => (p.1 : ℚ) * (10 : ℚ) ^ p.2)

/-- Gregorian leap-year rule. -/
def isLeapYear (y : Nat) : Bool :=
  (y % 4 == 0 && y % 100 != 0) || y % 400 == 0

/-- Days in a year. -/
def daysInYear (y : Nat) : Nat :=
  if isLeapYear y then 366 else 365

/-- Days in month `mo` (1-based) of year `y`. -/
def daysInMonth (y mo : Nat) : Nat :=
  if mo = 2 then (if isLeapYear y then 29 else 28)
  else if mo = 4 ∨ mo = 6 ∨ mo = 9 ∨ mo = 11 then 30
  else 31

/-- Days in year `y` strictly before month `mo`. -/
def daysBeforeMonth (y mo : Nat) : Nat :=
  ((List.range (mo - 1)).map (fun i => daysInMonth y (i + 1))).sum

/-- Days from 1970-01-01 to the start of year `y` (for `y ≥ 1970`). -/
def daysBeforeYear (y : Nat) : Nat :=
  ((List.range (y - 1970)).map (fun i => daysInYear (1970 + i))).sum

/-- Days from 1970-01-01 to `y-mo-d` (1-based month and day, `y ≥ 1970`). -/
def epochDays (y mo d : Nat) : Nat :=
  daysBeforeYear y + daysBeforeMonth y mo + (d - 1)

/-- The V8 `Date` constructor applied to the ISO string
`"<ys>-<ms>-<ds>T<hs>:<mins>:<ss>+03:00"` that `parseTransactionDate`
builds from its six slices: `some` epoch milliseconds when every slice is a
digit string denoting an existing calendar date and time of day (V8's ISO
parser rejects out-of-range components such as February 31), `none` for an
`Invalid Date`.  The year is kept ≥ 1970 (the enclosing validation only
lets years 2020–2030 through, so the model is never consulted below
that). -/
def isoDateEpochMs (ys ms ds hs mins ss : String) : Option Int :=
  if isDigitStr ys && isDigitStr ms && isDigitStr ds &&
      isDigitStr hs && isDigitStr mins && isDigitStr ss then
    let y := strVal ys
    let mo := strVal ms
    let d := strVal ds
    let h := strVal hs
    let mi := strVal mins
    let sec := strVal ss
    if 1970 ≤ y && 1 ≤ mo && mo ≤ 12 && 1 ≤ d && d ≤ daysInMonth y mo &&
        h ≤ 23 && mi ≤ 59 && sec ≤ 59 then
      -- the +03:00 offset shifts the instant back by 10800 seconds
      some ((((epochDays y mo d * 86400 + h * 3600 + mi * 60 + sec : Nat) : Int)
        - 10800) * 1000)
    else none
  else none

/-- A JavaScript `Date` value as produced by `parseTransactionDate`:
a definite instant (epoch milliseconds), the `Invalid Date` object (which
the Unix branch returns unchecked when `TimeClip` rejects an
out-of-range time value), or the `new Date()` fallback taken at the
moment of the call. -/
inductive JsDate where
  | instant (epochMs : Int)
  | invalidDate
  | currentTime
deriving DecidableEq, Repr

/-- Absolute value on ℤ, written out so it evaluates by `decide`. -/
def intAbs (m : Int) : Int :=
  if m < 0 then -m else m

/-- `new Date(ts * 1000)` for `ts = m · 10^e` (the exact value `Number`
produced): the time value is `v = m · 10^(e+3)` ms; per `TimeClip`, the
`Date` is invalid when `|v| > 8.64e15`, and otherwise holds `v` truncated
toward zero (`ToIntegerOrInfinity`).  The arithmetic is phrased on the
scientific pair so it stays exact and kernel-computable: for `e + 3 ≥ 0`
the value is the integer `m · 10^(e+3)` (with `|m| ≥ 1`, any exponent
beyond 15 already exceeds the bound); for `e + 3 < 0` it is `m / 10^k`
with `k = -(e+3)`, invalid iff `|m| > 8.64e15 · 10^k` and truncating to
`Int.tdiv m 10^k` — computed only when `10^k ≤ |m|` (the `min k 17` guard;
callers pass mantissas below `10^17`, so the guard is exact), since
otherwise `|v| < 1` and the result is the instant `0`. -/
def dateFromSci (m e : Int) : JsDate :=
  if m = 0 then .instant 0
  else if 0 ≤ e + 3 then
    (if 15 < e + 3 then .invalidDate
     else if 8640000000000000 < intAbs (m * 10 ^ (e + 3).toNat) then .invalidDate
     else .instant (m * 10 ^ (e + 3).toNat))
  else
    (if m.natAbs < 10 ^ (min (-(e + 3)).toNat 17) then .instant 0
     else if 8640000000000000 * 10 ^ (-(e + 3)).toNat < intAbs m then .invalidDate
     else .instant (Int.tdiv m (10 ^ (-(e + 3)).toNat)))

/-- One component check of the source's validation
(`yearNum < 2020 || yearNum > 2030 || ...`): a `NaN` component (`none`)
passes, because every JavaScript comparison against `NaN` is false. -/
def outOfRange (x : Option Int) (lo hi : Int) : Bool :=
  match x with
  | none => false
  | some n => n < lo || n > hi

/-- `MpesaUtils.parseTransactionDate`.  Every `throw` inside the `try` is
caught by the enclosing `catch`, which substitutes `new Date()`
(`JsDate.currentTime`); the function never propagates a failure.
A 14-character (trimmed) input is sliced into `YYYY MM DD HH MM SS`,
validated component-wise with `parseInt` (a `NaN` component passes the
range checks, since every comparison against `NaN` is false), and handed to
the `Date` constructor as an ISO string with a `+03:00` offset; a
10-character input is treated as Unix epoch seconds via `Number`. -/
def parseTransactionDate (dateStr : String) : JsDate :=
  -- `if (!dateStr || typeof dateStr !== 'string')` throws on the empty string
  if dateStr = "" then .currentTime
  else
    let c := strTrim dateStr
    if c.length = 14 then
      let ys := strSlice c 0 4
      let ms := strSlice c 4 6
      let ds := strSlice c 6 8
      let hs := strSlice c 8 10
      let mins := strSlice c 10 12
      let ss := strSlice c 12 14
      -- `throw new Error('Invalid date components: ...')` branch
      if outOfRange (jsParseIntOpt ys) 2020 2030 || outOfRange (jsParseIntOpt ms) 1 12 ||
          outOfRange (jsParseIntOpt ds) 1 31 || outOfRange (jsParseIntOpt hs) 0 23 ||
          outOfRange (jsParseIntOpt mins) 0 59 || outOfRange (jsParseIntOpt ss) 0 59 then
        .currentTime
      else
        match isoDateEpochMs ys ms ds hs mins ss with
        | some n => .instant n
        | none => .currentTime  -- `isNaN(parsedDate.getTime())` branch
    else if c.length = 10 then
      match jsNumberSci c with
      | none => .currentTime  -- `isNaN(timestamp)` branch
      | some (m, e) =>
          -- `new Date(timestamp * 1000)`, returned without a validity
          -- check (an out-of-range value stays an Invalid Date object)
          dateFromSci m e
    else
      .currentTime  -- `Unexpected date format` branch

/-! ## Callback metadata parsing (`MpesaUtils.parseCallbackMetadata`) -/

/-- A loosely-typed webhook item value (`Value: string | number`). -/
inductive JsVal where
  | str (s : String)
  | num (n : Int)
deriving DecidableEq, Repr

/-- JavaScript `String(value)` on an item value (integer numbers print in
decimal, as `Int.repr` does). -/
def jsValToString : JsVal → String
  | .str s => s
  | .num n => toString n

/-- JavaScript `Number(value)` on an item value (`none` = `NaN`). -/
def jsValToNumber : JsVal → Option ℚ
  | .num n => some (n : ℚ)
  | .str s => jsNumberOpt s

/-- One `{Name, Value}` metadata item; `Name := none` models a missing
`Name` property. -/
structure CallbackItem where
  Name : Option String
  Value : JsVal
deriving DecidableEq, Repr

/-- The object `parseCallbackMetadata` accumulates: the five recognized
fields plus the catch-all mapping for every other name. -/
structure ParsedMetadata where
  Amount : Option (Option ℚ) := none  -- inner `none` = `NaN`
  MpesaReceiptNumber : Option String := none
  Balance : Option (Option ℚ) := none
  TransactionDate : Option JsDate := none
  PhoneNumber : Option String := none
  extra : List (String × JsVal) := []
deriving DecidableEq, Repr

/-- JS object assignment for the catch-all mapping: overwrite an existing
key or append. -/
def upsertExtra (l : List (String × JsVal)) (k : String) (v : JsVal) :
    List (String × JsVal) :=
  match l with
  | [] => [(k, v)]
  | (k', v') :: rest =>
      if k' = k then (k, v) :: rest else (k', v') :: upsertExtra rest k v

/-- The `forEach` body of `parseCallbackMetadata`: skip an item whose
`Name` is missing or falsy (the empty string), otherwise dispatch on the
trimmed name.  No coercion in the body can actually throw, so the per-item
`try/catch` never fires. -/
def parseMetadataItem (acc : ParsedMetadata) (item : CallbackItem) : ParsedMetadata :=
  match item.Name with
  | none => acc
  | some nm =>
      if nm = "" then acc
      else
        let name := strTrim nm
        if name = "Amount" then
          { acc with Amount := some (jsValToNumber item.Value) }
        else if name = "MpesaReceiptNumber" then
          { acc with MpesaReceiptNumber := some (strTrim (jsValToString item.Value)) }
        else if name = "Balance" then
          { acc with Balance := some (jsValToNumber item.Value) }
        else if name = "TransactionDate" then
          { acc with TransactionDate := some (parseTransactionDate (strTrim (jsValToString item.Value))) }
        else if name = "PhoneNumber" then
          { acc with PhoneNumber := some (strTrim (jsValToString item.Value)) }
        else
          { acc with extra := upsertExtra acc.extra name item.Value }

/-- `MpesaUtils.parseCallbackMetadata` on an item array. -/
def parseCallbackMetadata (items : List CallbackItem) : ParsedMetadata :=
  items.foldl parseMetadataItem {}

/-! ## Transaction ledger and callback reconciliation
(`MpesaService.handleCallback`) -/

/-- `TransactionStatus` enum from the Prisma schema. -/
inductive TransactionStatus where
  | PENDING
  | SUCCESS
  | FAILED
  | CANCELLED
  | TIMEOUT
deriving DecidableEq, Repr

/-- A row of the `mpesa_transactions` table (the `Decimal` amount is
modelled as an integer; `DateTime?` columns as optional `JsDate`). -/
structure TransactionRecord where
  merchantRequestID : String
  checkoutRequestID : String
  responseCode : Option String := none
  responseDescription : Option String := none
  customerMessage : Option String := none
  amount : Int
  phoneNumber : String
  accountReference : String
  transactionDesc : String
  mpesaReceiptNumber : Option String := none
  transactionDate : Option JsDate := none
  resultCode : Option Int := none
  resultDesc : Option String := none
  status : TransactionStatus
deriving DecidableEq, Repr

/-- `prisma.mpesaTransaction.findUnique({ where: { checkoutRequestID } })`
over the in-memory ledger. -/
def findTransaction (ledger : List TransactionRecord) (id : String) :
    Option TransactionRecord :=
  ledger.find? (fun t => t.checkoutRequestID == id)

/-- The `updateData` object `handleCallback` builds: `resultCode`,
`resultDesc` and `status` are always present; the receipt and date patches
are present only on the branches that assign them. -/
structure UpdateData where
  resultCode : Int
  resultDesc : Option String
  status : TransactionStatus
  mpesaReceiptNumber : Option String := none
  transactionDate : Option JsDate := none
deriving DecidableEq, Repr

/-- Prisma `update` semantics: fields present in the patch overwrite the
row, absent fields keep their stored value. -/
def applyUpdate (t : TransactionRecord) (u : UpdateData) : TransactionRecord :=
  { t with
    status := u.status
    resultCode := some u.resultCode
    resultDesc := u.resultDesc
    mpesaReceiptNumber :=
      match u.mpesaReceiptNumber with
      | some r => some r
      | none => t.mpesaReceiptNumber
    transactionDate :=
      match u.transactionDate with
      | some d => some d
      | none => t.transactionDate }

/-- `prisma.mpesaTransaction.update({ where: { checkoutRequestID } })`:
rewrite the (unique) row with the matching key. -/
def updateTransaction (ledger : List TransactionRecord) (id : String)
    (u : UpdateData) : List TransactionRecord :=
  match ledger with
  | [] => []
  | t :: rest =>
      if t.checkoutRequestID == id then applyUpdate t u :: rest
      else t :: updateTransaction rest id u

/-- The `stkCallback` envelope after DTO validation (`ResultCode` is a
number, `ResultDesc` a string).  `metadataItems = some items` exactly when
`CallbackMetadata && CallbackMetadata.Item && Array.isArray(...)` holds. -/
structure StkCallbackData where
  MerchantRequestID : String
  CheckoutRequestID : String
  ResultCode : Int
  ResultDesc : String
  metadataItems : Option (List CallbackItem) := none
deriving DecidableEq, Repr

/-- `Body` of the webhook payload (`stkCallback := none` models a missing
nested object). -/
structure CallbackBodyData where
  stkCallback : Option StkCallbackData
deriving DecidableEq, Repr

/-- The webhook payload (`Body := none` models a missing `Body`). -/
structure MpesaCallbackData where
  Body : Option CallbackBodyData
deriving DecidableEq, Repr

/-- The `HttpException`s `handleCallback` can surface. -/
inductive CallbackError where
  | malformedCallback (msg : String)            -- 400 BAD_REQUEST
  | unknownTransaction (checkoutRequestID : String)  -- 404 NOT_FOUND
deriving DecidableEq, Repr

/-- `MpesaService.handleCallback` at wall-clock time `nowMs`, acting on the
ledger.  Returns the thrown error or the updated row, together with the
ledger after the call (unchanged on every error path).  The database itself
is modelled as always reachable, so the `P2025` race and the generic
500 branch of the inner `catch` cannot arise. -/
def handleCallback (nowMs : Nat) (ledger : List TransactionRecord)
    (callbackData : MpesaCallbackData) :
    Except CallbackError TransactionRecord × List TransactionRecord :=
  match callbackData.Body with
  | none => (.error (.malformedCallback "Invalid callback format: missing Body"), ledger)
  | some body =>
    match body.stkCallback with
    | none =>
        (.error (.malformedCallback "Invalid callback format: missing stkCallback"), ledger)
    | some s =>
      match findTransaction ledger s.CheckoutRequestID with
      | none => (.error (.unknownTransaction s.CheckoutRequestID), ledger)
      | some tx =>
        let u : UpdateData :=
          if s.ResultCode = 0 then
            -- SUCCESS case
            match s.metadataItems with
            | some items =>
                let metadata := parseCallbackMetadata items
                { resultCode := s.ResultCode
                  resultDesc := if s.ResultDesc = "" then none else some s.ResultDesc
                  status := .SUCCESS
                  -- `if (metadata.MpesaReceiptNumber)`: a trimmed-empty receipt is falsy
                  mpesaReceiptNumber :=
                    match metadata.MpesaReceiptNumber with
                    | some r => if r = "" then none else some r
                    | none => none
                  -- `if (metadata.TransactionDate)`: a Date object is always truthy
                  transactionDate :=
                    match metadata.TransactionDate with
                    | some d => some d
                    | none => some .currentTime }
            | none =>
                -- no metadata at all: fallback receipt and current time
                { resultCode := s.ResultCode
                  resultDesc := if s.ResultDesc = "" then none else some s.ResultDesc
                  status := .SUCCESS
                  mpesaReceiptNumber := some ("FALLBACK_" ++ toString nowMs)
                  transactionDate := some .currentTime }
          else
            { resultCode := s.ResultCode
              resultDesc := if s.ResultDesc = "" then none else some s.ResultDesc
              status :=
                if s.ResultCode = 1032 then .CANCELLED
                else if s.ResultCode = 1037 then .TIMEOUT
                else .FAILED }
        (.ok (applyUpdate tx u), updateTransaction ledger s.CheckoutRequestID u)

/-! ## STK-push initiation (`MpesaService.initiateStkPush` and
`getAccessToken`) -/

/-- The JSON body the gateway returns for the STK-push POST. -/
structure GatewayResponse where
  MerchantRequestID : String
  CheckoutRequestID : String
  ResponseCode : String
  ResponseDescription : String
  CustomerMessage : String
deriving DecidableEq, Repr

/-- The external environment of one `initiateStkPush` call: the wall clock,
the token-endpoint outcome (`none` covers both an HTTP error and a response
without `access_token`; either way `getAccessToken` throws), the request
fields from the validated `StkPushDto`, and the STK-push endpoint outcome
(`none` = transport error / timeout, i.e. Axios throws). -/
structure StkEnv where
  now : Nat
  authToken : Option String
  phoneNumber : String
  amount : Int
  accountReference : Option String := none
  transactionDesc : Option String := none
  gatewayResponse : Option GatewayResponse := none
deriving Repr

/-- The `HttpException`s `initiateStkPush` can surface. -/
inductive InitError where
  | serviceUnavailableBreaker       -- 503 'M-Pesa service temporarily unavailable'
  | authFailure                     -- 503 'Failed to authenticate with M-Pesa API'
  | gatewayRejected (desc : String) -- 400, rethrown gateway rejection
  | internalError                   -- 500 'Failed to initiate STK Push' (wraps plain Errors)
deriving DecidableEq, Repr

/-- The `MpesaResponseDto` returned on success. -/
structure MpesaResponse where
  MerchantRequestID : String
  CheckoutRequestID : String
  ResponseCode : String
  ResponseDescription : String
  CustomerMessage : String
deriving DecidableEq, Repr

/-- Everything observable about one `initiateStkPush` call: the returned
value or thrown exception, the circuit breaker afterwards, whether the
token endpoint and the STK-push endpoint were reached, and the `PENDING`
row `saveTransaction` created (if any). -/
structure InitOutcome where
  result : Except InitError MpesaResponse
  breaker : CircuitBreakerStatus
  calledAuth : Bool
  calledGateway : Bool
  saved : Option TransactionRecord
deriving Repr

/-- `MpesaService.initiateStkPush` acting on breaker state `cb` in
environment `env`.  Control flow of the source, in order: the breaker gate;
`getAccessToken` (which on failure calls `recordFailure` and throws a 503);
`formatPhoneNumber` (which on failure throws a plain `Error`); the POST to
the gateway; the `ResponseCode === '0'` check.  Every throw lands in the
outer `catch`, which calls `recordFailure` again, rethrows `HttpException`s
unchanged, and wraps anything else in a 500. -/
def initiateStkPush (env : StkEnv) (cb : CircuitBreakerStatus) : InitOutcome :=
  match breakerGate env.now cb with
  | none =>
      -- 503 thrown inside `try`: the outer catch records a failure first
      { result := .error .serviceUnavailableBreaker
        breaker := recordFailure env.now cb
        calledAuth := false, calledGateway := false, saved := none }
  | some cb1 =>
    match env.authToken with
    | none =>
        -- `getAccessToken` records a failure and throws an HttpException,
        -- then the outer catch records a second failure and rethrows
        { result := .error .authFailure
          breaker := recordFailure env.now (recordFailure env.now cb1)
          calledAuth := true, calledGateway := false, saved := none }
    | some _token =>
      match formatPhoneNumber env.phoneNumber with
      | .error _ =>
          -- plain `Error`: outer catch records a failure, wraps into a 500
          { result := .error .internalError
            breaker := recordFailure env.now cb1
            calledAuth := true, calledGateway := false, saved := none }
      | .ok formattedPhone =>
        match env.gatewayResponse with
        | none =>
            -- Axios transport error: outer catch records a failure, 500
            { result := .error .internalError
              breaker := recordFailure env.now cb1
              calledAuth := true, calledGateway := true, saved := none }
        | some r =>
          if r.ResponseCode = "0" then
            { result := .ok
                { MerchantRequestID := r.MerchantRequestID
                  CheckoutRequestID := r.CheckoutRequestID
                  ResponseCode := r.ResponseCode
                  ResponseDescription := r.ResponseDescription
                  CustomerMessage := r.CustomerMessage }
              breaker := recordSuccess cb1
              calledAuth := true, calledGateway := true
              saved := some
                { merchantRequestID := r.MerchantRequestID
                  checkoutRequestID := r.CheckoutRequestID
                  responseCode := some r.ResponseCode
                  responseDescription := some r.ResponseDescription
                  customerMessage := some r.CustomerMessage
                  amount := env.amount
                  phoneNumber := formattedPhone
                  accountReference := env.accountReference.getD "Payment"
                  transactionDesc := env.transactionDesc.getD "Payment for services"
                  status := .PENDING } }
          else
            -- 400 thrown inside `try`: outer catch records a failure, rethrows
            { result := .error (.gatewayRejected r.ResponseDescription)
              breaker := recordFailure env.now cb1
              calledAuth := true, calledGateway := true, saved := none }

/-! ## Retry with exponential backoff (`MpesaUtils.retryOperation`) -/

/-- The outcome of `retryOperation`: either the operation's value or the
`NotFoundException('Operation failed after maximum retries')` thrown when
all attempts are exhausted (the spec's `RetryExhausted` kind). -/
inductive RetryResult (A : Type) where
  | success (a : A)
  | exhausted
deriving DecidableEq, Repr

/-- The backoff delay the source computes after failed attempt `i`
(1-indexed): `baseDelay * Math.pow(2, attempt - 1) * jitter` with
`jitter = 0.5 + Math.random() * 0.5`; `rand i ∈ [0,1)` is the drawn
random number. -/
def backoffDelay (baseDelay : ℚ) (rand : Nat → ℚ) (i : Nat) : ℚ :=
  baseDelay * 2 ^ (i - 1) * (1 / 2 + rand i * (1 / 2))

/-- The `for` loop of `retryOperation`, at attempt number `attempt` with
`remaining` attempts still allowed (`remaining = maxRetries - attempt + 1`
at entry).  `op i` is the outcome of the `i`-th execution of the operation;
the second component collects the delays slept between attempts. -/
def retryFrom {E A : Type} (op : Nat → Except E A) (baseDelay : ℚ)
    (rand : Nat → ℚ) : Nat → Nat → RetryResult A × List ℚ
  | _attempt, 0 => (.exhausted, [])
  | attempt, remaining + 1 =>
    match op attempt with
    | .ok a => (.success a, [])
    | .error _ =>
      if remaining = 0 then
        -- `attempt < maxRetries` fails: no sleep, leave the loop, throw
        (.exhausted, [])
      else
        let rest := retryFrom op baseDelay rand (attempt + 1) remaining
        (rest.1, backoffDelay baseDelay rand attempt :: rest.2)

/-- `MpesaUtils.retryOperation(operation, maxRetries, baseDelay)`. -/
def retryOperation {E A : Type} (op : Nat → Except E A) (maxRetries : Nat)
    (baseDelay : ℚ) (rand : Nat → ℚ) : RetryResult A × List ℚ :=
  retryFrom op baseDelay rand 1 maxRetries

/-! ## Fixtures for counterexamples and witnesses -/

/-- A transaction already in the terminal `SUCCESS` state. -/
def txDone : TransactionRecord :=
  { merchantRequestID := "M1", checkoutRequestID := "C1", amount := 100,
    phoneNumber := "254712345678", accountReference := "ORDER123",
    transactionDesc := "Payment", status := .SUCCESS,
    mpesaReceiptNumber := some "NLJ7RT61SV", resultCode := some 0 }

/-- A pending transaction. -/
def txPending : TransactionRecord :=
  { merchantRequestID := "M2", checkoutRequestID := "C2", amount := 50,
    phoneNumber := "254712345678", accountReference := "ORDER124",
    transactionDesc := "Payment", status := .PENDING }

/-- The `stkCallback` of a well-formed failure callback (`ResultCode: 1`)
matching `txDone`. -/
def stkFailForDone : StkCallbackData :=
  { MerchantRequestID := "M1", CheckoutRequestID := "C1",
    ResultCode := 1, ResultDesc := "The balance is insufficient" }

/-- A well-formed failure callback (`ResultCode: 1`) for `txDone`. -/
def cbFailForDone : MpesaCallbackData :=
  { Body := some { stkCallback := some stkFailForDone } }

/-- An environment whose token endpoint always fails. -/
def authFailEnv (t : Nat) : StkEnv :=
  { now := t, authToken := none, phoneNumber := "0712345678", amount := 1 }

/-- An environment with a working token endpoint but an invalid phone
number. -/
def invalidPhoneEnv : StkEnv :=
  { now := 5, authToken := some "token", phoneNumber := "12345", amount := 1 }

/-- A successful `stkCallback` (`ResultCode: 0`) for `txPending`, carrying
a receipt number and a transaction date in its metadata. -/
def stkSuccessForPending : StkCallbackData :=
  { MerchantRequestID := "M2", CheckoutRequestID := "C2",
    ResultCode := 0, ResultDesc := "The service request is processed successfully.",
    metadataItems := some
      [⟨some "MpesaReceiptNumber", .str "NLJ7RT61SV"⟩,
       ⟨some "TransactionDate", .num 20250601120000⟩] }

/-- An `stkCallback` whose `CheckoutRequestID` matches no fixture. -/
def stkUnknown : StkCallbackData :=
  { MerchantRequestID := "MX", CheckoutRequestID := "C404",
    ResultCode := 0, ResultDesc := "ok" }

/-- The breaker state reached by five `recordFailure`s at times
10, 20, 30, 40, 50. -/
def openedBreaker : CircuitBreakerStatus :=
  { state := .OPEN, failures := 5, lastFailureTime := some 50,
    nextAttemptTime := some 60050 }

end Mpesa

namespace Mpesa

/-! ## Claim C3: `recordSuccess` -/

/-- **C3.** `recordSuccess` invoked while the breaker is `CLOSED` (indeed,
while it is anything but `HALF_OPEN`) leaves the whole breaker state
unchanged, so in particular the failures counter; a success recorded while
`HALF_OPEN` resets `failures` to `0` and sets the state to `CLOSED`, and
since `recordSuccess` is the identity in every other state, this is the
only way it resets the counter. -/
theorem C3_recordSuccess_spec :
    (∀ cb : CircuitBreakerStatus, cb.state ≠ .HALF_OPEN → recordSuccess cb = cb) ∧
    (∀ cb : CircuitBreakerStatus, cb.state = .HALF_OPEN →
      recordSuccess cb = { cb with state := .CLOSED, failures := 0 }) ∧
    (∀ cb : CircuitBreakerStatus, (recordSuccess cb).failures ≠ cb.failures →
      cb.state = .HALF_OPEN ∧ (recordSuccess cb).failures = 0 ∧
        (recordSuccess cb).state = .CLOSED) := by
  refine ⟨fun cb h => ?_, fun cb h => ?_, fun cb h => ?_⟩
  · simp [recordSuccess, h]
  · simp [recordSuccess, h]
  · by_cases hs : cb.state = .HALF_OPEN
    · exact ⟨hs, by simp [recordSuccess, hs], by simp [recordSuccess, hs]⟩
    · simp [recordSuccess, hs] at h

/-- Witness for C3 at concrete breaker states. -/
theorem C3_recordSuccess_spec_witness :
    recordSuccess { state := .CLOSED, failures := 3 } =
      { state := .CLOSED, failures := 3 } ∧
    recordSuccess { state := .HALF_OPEN, failures := 5 } =
      { state := .CLOSED, failures := 0 } := by
  constructor
  · exact C3_recordSuccess_spec.1 { state := .CLOSED, failures := 3 } (by decide)
  · exact C3_recordSuccess_spec.2.1 { state := .HALF_OPEN, failures := 5 } rfl

/-! ## Claim C4: breaker opening and the `HALF_OPEN` probe -/

/-- **C4.** (i) Five consecutive recorded failures starting from the fresh
breaker leave it `OPEN` with `nextAttemptTime` sixty seconds after the last
failure.  (ii) While `OPEN` with the current time strictly before
`nextAttemptTime`, an initiation attempt fails with the
`ServiceUnavailable` ("temporarily unavailable") signal and touches neither
the token endpoint nor the STK-push endpoint and writes nothing.  (iii) An
attempt once `nextAttemptTime` has been reached passes the gate with the
breaker transitioned to `HALF_OPEN`, and the call reaches the token
endpoint as a probe. -/
theorem C4_breaker_open_spec :
    (∀ t1 t2 t3 t4 t5 : Nat,
      recordFailure t5 (recordFailure t4 (recordFailure t3
          (recordFailure t2 (recordFailure t1 initialBreaker)))) =
        { state := .OPEN, failures := 5, lastFailureTime := some t5,
          nextAttemptTime := some (t5 + resetTimeout) }) ∧
    (∀ (env : StkEnv) (cb : CircuitBreakerStatus) (t : Nat),
      cb.state = .OPEN → cb.nextAttemptTime = some t → env.now < t →
      (initiateStkPush env cb).result = .error .serviceUnavailableBreaker ∧
      (initiateStkPush env cb).calledAuth = false ∧
      (initiateStkPush env cb).calledGateway = false ∧
      (initiateStkPush env cb).saved = none) ∧
    (∀ (env : StkEnv) (cb : CircuitBreakerStatus) (t : Nat),
      cb.state = .OPEN → cb.nextAttemptTime = some t → t ≤ env.now →
      breakerGate env.now cb = some { cb with state := .HALF_OPEN } ∧
      (initiateStkPush env cb).calledAuth = true) := by
  refine ⟨fun t1 t2 t3 t4 t5 => rfl, fun env cb t hs hn hlt => ?_, fun env cb t hs hn hge => ?_⟩
  · have hg : breakerGate env.now cb = none := by
      simp [breakerGate, hs, hn, hlt]
    simp [initiateStkPush, hg]
  · have hg : breakerGate env.now cb = some { cb with state := .HALF_OPEN } := by
      simp [breakerGate, hs, hn, Nat.not_lt_of_ge hge]
    refine ⟨hg, ?_⟩
    simp only [initiateStkPush, hg]
    cases env.authToken with
    | none => rfl
    | some tok =>
      cases hfp : formatPhoneNumber env.phoneNumber with
      | error e => simp [hfp]
      | ok p =>
        cases hgw : env.gatewayResponse with
        | none => simp [hfp, hgw]
        | some r =>
          by_cases hrc : r.ResponseCode = "0" <;> simp [hfp, hgw, hrc]

/-- Witness for C4 at a concrete opened breaker and concrete times. -/
theorem C4_breaker_open_spec_witness :
    (recordFailure 50 (recordFailure 40 (recordFailure 30
        (recordFailure 20 (recordFailure 10 initialBreaker)))) = openedBreaker) ∧
    (initiateStkPush (authFailEnv 100) openedBreaker).calledAuth = false ∧
    (breakerGate 60050 openedBreaker =
      some { openedBreaker with state := .HALF_OPEN }) := by
  refine ⟨C4_breaker_open_spec.1 10 20 30 40 50, ?_, ?_⟩
  · exact (C4_breaker_open_spec.2.1 (authFailEnv 100) openedBreaker 60050
      rfl rfl (by decide)).2.1
  · exact (C4_breaker_open_spec.2.2
      { now := 60050, authToken := none, phoneNumber := "p", amount := 1 }
      openedBreaker 60050 rfl rfl (by decide)).1

/-! ## Claim C2: invalid phone number and the breaker (corrected)

The claim says an `InvalidPhoneNumber` failure leaves the breaker
untouched.  In the source, `formatPhoneNumber` throws a plain `Error`
**after** the token fetch, and the outer `catch` of `initiateStkPush`
(lines 161–163) calls `this.recordFailure()` for *every* error, validation
errors included — so the failures counter increments. -/

/-- **C2 counterexample.** From the fresh `CLOSED` breaker, an initiation
with the invalid phone number `"12345"` (and a working token endpoint)
fails, yet the breaker afterwards differs from the breaker before: the
failures counter has become 1 and `lastFailureTime` is stamped. -/
theorem C2_counterexample :
    formatPhoneNumber "12345" = .error "Invalid phone number format: 12345" ∧
    (initiateStkPush invalidPhoneEnv initialBreaker).result = .error .internalError ∧
    (initiateStkPush invalidPhoneEnv initialBreaker).breaker ≠ initialBreaker ∧
    (initiateStkPush invalidPhoneEnv initialBreaker).breaker.failures =
      initialBreaker.failures + 1 := by
  refine ⟨by decide, by decide, by decide, by decide⟩

/-- **C2 amended.** An initiation attempt from a `CLOSED` breaker that
fails because the phone number matches none of the accepted forms (the
token fetch having succeeded) surfaces a 500 error, never reaches the
STK-push endpoint, writes no transaction — and records exactly one breaker
failure: the breaker afterwards is `recordFailure` of the breaker before
(failures + 1, `lastFailureTime` stamped; state and `nextAttemptTime`
additionally change only if the count reaches `maxFailures`). -/
theorem C2_invalid_phone_records_failure (env : StkEnv) (cb : CircuitBreakerStatus)
    (tok : String) (msg : String)
    (hclosed : cb.state = .CLOSED)
    (htok : env.authToken = some tok)
    (hphone : formatPhoneNumber env.phoneNumber = .error msg) :
    initiateStkPush env cb =
      { result := .error .internalError, breaker := recordFailure env.now cb,
        calledAuth := true, calledGateway := false, saved := none } := by
  have hg : breakerGate env.now cb = some cb := by
    simp [breakerGate, hclosed]
  simp [initiateStkPush, hg, htok, hphone]

/-- Witness for C2's amended theorem at the concrete environment. -/
theorem C2_invalid_phone_records_failure_witness :
    initiateStkPush invalidPhoneEnv initialBreaker =
      { result := .error .internalError,
        breaker := recordFailure 5 initialBreaker,
        calledAuth := true, calledGateway := false, saved := none } :=
  C2_invalid_phone_records_failure invalidPhoneEnv initialBreaker "token"
    "Invalid phone number format: 12345" rfl rfl (by decide)

/-- `recordFailure` always increments the failures counter by one. -/
theorem recordFailure_failures (t : Nat) (cb : CircuitBreakerStatus) :
    (recordFailure t cb).failures = cb.failures + 1 := by
  simp only [recordFailure]
  split <;> rfl

/-! ## Claim C10: a failed token fetch counts twice -/

/-- **C10.** When the access-token fetch fails, `getAccessToken` calls
`recordFailure` once and throws an `HttpException`, which the outer handler
of `initiateStkPush` catches, calling `recordFailure` a second time: the
failures counter grows by exactly 2 for that single initiation.
Consequently three consecutive auth-failing initiations from the fresh
breaker (counts 2, 4, then 6) open the breaker. -/
theorem C10_auth_failure_double_count :
    (∀ (env : StkEnv) (cb : CircuitBreakerStatus),
      env.authToken = none → cb.state = .CLOSED →
      initiateStkPush env cb =
        { result := .error .authFailure,
          breaker := recordFailure env.now (recordFailure env.now cb),
          calledAuth := true, calledGateway := false, saved := none } ∧
      (initiateStkPush env cb).breaker.failures = cb.failures + 2) ∧
    (∀ t1 t2 t3 : Nat,
      ((initiateStkPush (authFailEnv t3)
        (initiateStkPush (authFailEnv t2)
          (initiateStkPush (authFailEnv t1) initialBreaker).breaker).breaker).breaker).state
        = .OPEN) := by
  have key : ∀ (env : StkEnv) (cb : CircuitBreakerStatus),
      env.authToken = none → cb.state = .CLOSED →
      initiateStkPush env cb =
        { result := .error .authFailure,
          breaker := recordFailure env.now (recordFailure env.now cb),
          calledAuth := true, calledGateway := false, saved := none } := by
    intro env cb hnone hclosed
    have hg : breakerGate env.now cb = some cb := by
      simp [breakerGate, hclosed]
    simp [initiateStkPush, hg, hnone]
  refine ⟨fun env cb hnone hclosed => ⟨key env cb hnone hclosed, ?_⟩, fun t1 t2 t3 => ?_⟩
  · rw [key env cb hnone hclosed]
    simp [recordFailure_failures]
  · rw [key (authFailEnv t1) initialBreaker rfl rfl]
    rw [key (authFailEnv t2) _ rfl (by simp [recordFailure, initialBreaker, authFailEnv, maxFailures])]
    rw [key (authFailEnv t3) _ rfl (by simp [recordFailure, initialBreaker, authFailEnv, maxFailures])]
    simp [recordFailure, initialBreaker, authFailEnv, maxFailures]

/-- Witness for C10 at concrete times. -/
theorem C10_auth_failure_double_count_witness :
    (initiateStkPush (authFailEnv 7) initialBreaker).breaker.failures = 2 ∧
    ((initiateStkPush (authFailEnv 30)
      (initiateStkPush (authFailEnv 20)
        (initiateStkPush (authFailEnv 10) initialBreaker).breaker).breaker).breaker).state
      = .OPEN := by
  constructor
  · exact ((C10_auth_failure_double_count.1 (authFailEnv 7) initialBreaker rfl rfl).2)
  · exact C10_auth_failure_double_count.2 10 20 30

/-! ## Claim C6: unknown `CheckoutRequestID` -/

/-- **C6.** A well-formed callback whose `CheckoutRequestID` matches no
stored transaction fails with the `UnknownTransaction` (404 not-found)
error, and the ledger after the call is exactly the ledger before: no
record is created or modified. -/
theorem C6_unknown_transaction_no_write (nowMs : Nat)
    (ledger : List TransactionRecord) (s : StkCallbackData)
    (hnone : findTransaction ledger s.CheckoutRequestID = none) :
    handleCallback nowMs ledger { Body := some { stkCallback := some s } } =
      (.error (.unknownTransaction s.CheckoutRequestID), ledger) := by
  simp [handleCallback, hnone]

/-- Witness for C6: a callback for `"C404"` against a ledger holding only
`txPending` (`"C2"`). -/
theorem C6_unknown_transaction_no_write_witness :
    handleCallback 0 [txPending] { Body := some { stkCallback := some stkUnknown } } =
      (.error (.unknownTransaction "C404"), [txPending]) :=
  C6_unknown_transaction_no_write 0 [txPending] stkUnknown (by decide)

/-! ## Claim C5: `ResultCode` → status mapping -/

/-- **C5.** For a well-formed callback on a known transaction, the
persisted status is determined by `ResultCode`: `0` → `SUCCESS`, `1032` →
`CANCELLED`, `1037` → `TIMEOUT`, every other non-zero code → `FAILED`; and
in the `SUCCESS` case with a metadata item list present whose parse
produces a (non-empty) receipt number and a transaction date, the receipt
number and transaction timestamp of the stored row come from that parsed
metadata. -/
theorem C5_result_code_mapping (nowMs : Nat) (ledger : List TransactionRecord)
    (s : StkCallbackData) (tx : TransactionRecord)
    (hfind : findTransaction ledger s.CheckoutRequestID = some tx) :
    ∃ t', (handleCallback nowMs ledger { Body := some { stkCallback := some s } }).1 = .ok t' ∧
      (s.ResultCode = 0 → t'.status = .SUCCESS) ∧
      (s.ResultCode = 1032 → t'.status = .CANCELLED) ∧
      (s.ResultCode = 1037 → t'.status = .TIMEOUT) ∧
      (s.ResultCode ≠ 0 → s.ResultCode ≠ 1032 → s.ResultCode ≠ 1037 →
        t'.status = .FAILED) ∧
      (∀ items r d, s.ResultCode = 0 → s.metadataItems = some items →
        (parseCallbackMetadata items).MpesaReceiptNumber = some r → r ≠ "" →
        (parseCallbackMetadata items).TransactionDate = some d →
        t'.mpesaReceiptNumber = some r ∧ t'.transactionDate = some d) := by
  simp only [handleCallback, hfind]
  refine ⟨_, rfl, ?_, ?_, ?_, ?_, ?_⟩
  · intro h0
    cases hmi : s.metadataItems <;> simp [applyUpdate, h0, hmi]
  · intro h
    have h0 : s.ResultCode ≠ 0 := by simp [h]
    simp [applyUpdate, h0, h]
  · intro h
    have h0 : s.ResultCode ≠ 0 := by simp [h]
    have h32 : s.ResultCode ≠ 1032 := by simp [h]
    simp [applyUpdate, h0, h32, h]
  · intro h0 h32 h37
    simp [applyUpdate, h0, h32, h37]
  · intro items r d h0 hmi hr hrne hd
    simp [applyUpdate, h0, hmi, hr, hrne, hd]

/-- Witness for C5: a `ResultCode: 0` callback for `txPending` with a
receipt number and a transaction date in the metadata. -/
theorem C5_result_code_mapping_witness :
    ∃ t', (handleCallback 0 [txPending]
        { Body := some { stkCallback := some stkSuccessForPending } }).1 = .ok t' ∧
      t'.status = .SUCCESS ∧
      t'.mpesaReceiptNumber = some "NLJ7RT61SV" ∧
      t'.transactionDate = some (.instant 1748768400000) := by
  obtain ⟨t', heq, hs, -, -, -, hmeta⟩ :=
    C5_result_code_mapping 0 [txPending] stkSuccessForPending txPending (by decide)
  obtain ⟨hr, hd⟩ := hmeta
    [⟨some "MpesaReceiptNumber", .str "NLJ7RT61SV"⟩,
     ⟨some "TransactionDate", .num 20250601120000⟩]
    "NLJ7RT61SV" (.instant 1748768400000) rfl rfl (by decide) (by decide) (by decide)
  exact ⟨t', heq, hs rfl, hr, hd⟩

/-! ## Claim C1: terminal states and overwriting (corrected)

The claim says a terminal status, once set, is never overwritten by a later
callback.  The source's `handleCallback` looks the row up but never
consults its current `status`: the `prisma.mpesaTransaction.update` is
unconditional, exactly as §4.5 step 5 and the §9 open question of the spec
describe.  A duplicate or late callback therefore *does* overwrite a
terminal state. -/

/-- **C1 counterexample.** `txDone` is stored as `SUCCESS` (a terminal
state, with its receipt number), yet processing the well-formed failure
callback `cbFailForDone` for the same `CheckoutRequestID` succeeds and
rewrites the stored status to `FAILED` and the outcome fields
(`resultCode` 0 → 1, `resultDesc` overwritten). -/
theorem C1_counterexample :
    txDone.status = .SUCCESS ∧
    (handleCallback 0 [txDone] cbFailForDone).2.map TransactionRecord.status =
      [.FAILED] ∧
    (handleCallback 0 [txDone] cbFailForDone).2.map TransactionRecord.resultCode =
      [some 1] := by
  refine ⟨rfl, by decide, by decide⟩

/-- **C1 amended.** `handleCallback` never conditions its write on the
looked-up row's current status: for every known transaction — whatever its
status, terminal or not — the callback succeeds and persists an update
whose status is computed from `ResultCode` alone, overwriting the stored
status and outcome fields unconditionally. -/
theorem C1_terminal_overwrite (nowMs : Nat) (ledger : List TransactionRecord)
    (s : StkCallbackData) (tx : TransactionRecord)
    (hfind : findTransaction ledger s.CheckoutRequestID = some tx) :
    ∃ u : UpdateData,
      handleCallback nowMs ledger { Body := some { stkCallback := some s } } =
        (.ok (applyUpdate tx u), updateTransaction ledger s.CheckoutRequestID u) ∧
      u.status =
        (if s.ResultCode = 0 then .SUCCESS
         else if s.ResultCode = 1032 then .CANCELLED
         else if s.ResultCode = 1037 then .TIMEOUT
         else .FAILED) ∧
      u.resultCode = s.ResultCode := by
  simp only [handleCallback, hfind]
  refine ⟨_, rfl, ?_, ?_⟩
  · by_cases h0 : s.ResultCode = 0
    · cases hmi : s.metadataItems <;> simp [h0, hmi]
    · by_cases h32 : s.ResultCode = 1032
      · simp [h0, h32]
      · by_cases h37 : s.ResultCode = 1037 <;> simp [h0, h32, h37]
  · by_cases h0 : s.ResultCode = 0
    · cases hmi : s.metadataItems <;> simp [h0, hmi]
    · simp [h0]

/-- Witness for C1's amended theorem: the failure callback overwriting the
terminal `txDone`. -/
theorem C1_terminal_overwrite_witness :
    ∃ u : UpdateData,
      handleCallback 0 [txDone] { Body := some { stkCallback := some stkFailForDone } } =
        (.ok (applyUpdate txDone u), updateTransaction [txDone] "C1" u) ∧
      u.status = .FAILED ∧ u.resultCode = 1 := by
  obtain ⟨u, heq, hst, hrc⟩ :=
    C1_terminal_overwrite 0 [txDone] stkFailForDone txDone (by decide)
  exact ⟨u, heq, by simpa using hst, hrc⟩

/-! ## Claim C9: phone-number normalization -/

/-- After `\D` stripping, the cleaned string holds only digits, so the
source's `startsWith('+254')` branch can never fire. -/
theorem cleanDigits_not_plus (s : String) :
    strStartsWith (cleanDigits s) "+254" = false := by
  simp only [strStartsWith, cleanDigits]
  cases h : s.toList.filter Char.isDigit with
  | nil => rfl
  | cons hd tl =>
    have hmem : hd ∈ s.toList.filter Char.isDigit := by
      rw [h]; exact List.mem_cons_self _ _
    have hdig : Char.isDigit hd = true := (List.mem_filter.mp hmem).2
    have hne : ('+' == hd) = false := by
      rw [beq_eq_false_iff_ne]
      intro he
      rw [← he] at hdig
      exact absurd hdig (by decide)
    simp [List.isPrefixOf, hne]

/-- **C9.** `"0712345678"`, `"254712345678"` and `"+254712345678"` all
normalize to `"254712345678"`; `"12345"` fails with the
`InvalidPhoneNumber` error; and in general every input whose digit content
matches none of the accepted forms (leading-0 ten-digit, `254…` twelve-
digit, bare nine-digit) fails with that error. -/
theorem C9_formatPhoneNumber_spec :
    formatPhoneNumber "0712345678" = .ok "254712345678" ∧
    formatPhoneNumber "254712345678" = .ok "254712345678" ∧
    formatPhoneNumber "+254712345678" = .ok "254712345678" ∧
    formatPhoneNumber "12345" = .error "Invalid phone number format: 12345" ∧
    (∀ s : String,
      (strStartsWith (cleanDigits s) "0" && (cleanDigits s).length == 10) = false →
      (strStartsWith (cleanDigits s) "254" && (cleanDigits s).length == 12) = false →
      ((cleanDigits s).length == 9) = false →
      formatPhoneNumber s = .error ("Invalid phone number format: " ++ s)) := by
  refine ⟨by decide, by decide, by decide, by decide, fun s h1 h2 h3 => ?_⟩
  simp only [formatPhoneNumber, h1, h2, h3, cleanDigits_not_plus]
  rfl

/-- Witness for C9's universal rejection clause at `"abc"` (no digits at
all, hence none of the accepted forms). -/
theorem C9_formatPhoneNumber_spec_witness :
    formatPhoneNumber "abc" = .error "Invalid phone number format: abc" :=
  C9_formatPhoneNumber_spec.2.2.2.2 "abc" (by decide) (by decide) (by decide)

/-! ## Claim C8: retry with exponential backoff -/

/-- Shifting a `List.range` enumeration by one position. -/
theorem range_shift_map (f : Nat → ℚ) (n a : Nat) :
    (List.range (n + 1)).map (fun j => f (a + j)) =
      f a :: (List.range n).map (fun j => f (a + 1 + j)) := by
  rw [List.range_succ_eq_map, List.map_cons, List.map_map]
  refine congrArg₂ _ (by simp) ?_
  induction n with
  | zero => rfl
  | succ n ih =>
      rw [List.range_succ, List.map_append, List.map_append, ih]
      simp [Function.comp, Nat.add_assoc, Nat.add_comm 1 n]

/-- One loop step when the attempt succeeds. -/
theorem retryFrom_step_ok {E A : Type} (op : Nat → Except E A) (b : ℚ)
    (rand : Nat → ℚ) (attempt n : Nat) (a : A) (hok : op attempt = .ok a) :
    retryFrom op b rand attempt (n + 1) = (.success a, []) := by
  conv_lhs => rw [retryFrom]
  rw [hok]

/-- One loop step when the attempt fails and it was the last one
(`attempt < maxRetries` is false): leave the loop without sleeping. -/
theorem retryFrom_step_last {E A : Type} (op : Nat → Except E A) (b : ℚ)
    (rand : Nat → ℚ) (attempt : Nat) (e : E) (he : op attempt = .error e) :
    retryFrom op b rand attempt 1 = (.exhausted, []) := by
  conv_lhs => rw [retryFrom]
  rw [he]
  rfl

/-- One loop step when the attempt fails with attempts to spare: sleep the
backoff delay and continue with the next attempt. -/
theorem retryFrom_step_err {E A : Type} (op : Nat → Except E A) (b : ℚ)
    (rand : Nat → ℚ) (attempt n : Nat) (e : E) (he : op attempt = .error e)
    (hn : n ≠ 0) :
    retryFrom op b rand attempt (n + 1) =
      ((retryFrom op b rand (attempt + 1) n).1,
        backoffDelay b rand attempt :: (retryFrom op b rand (attempt + 1) n).2) := by
  conv_lhs => rw [retryFrom]
  rw [he]
  simp [hn]

/-- The retry loop when every attempt fails: it exhausts all `n + 1`
remaining attempts and sleeps after each one but the last. -/
theorem retryFrom_all_fail {E A : Type} (op : Nat → Except E A) (b : ℚ)
    (rand : Nat → ℚ) (hfail : ∀ i, ∃ e, op i = .error e) :
    ∀ (n attempt : Nat),
      retryFrom op b rand attempt (n + 1) =
        (.exhausted, (List.range n).map (fun j => backoffDelay b rand (attempt + j))) := by
  intro n
  induction n with
  | zero =>
      intro attempt
      obtain ⟨e, he⟩ := hfail attempt
      exact retryFrom_step_last op b rand attempt e he
  | succ n ih =>
      intro attempt
      obtain ⟨e, he⟩ := hfail attempt
      rw [retryFrom_step_err op b rand attempt (n + 1) e he (Nat.succ_ne_zero n)]
      rw [ih (attempt + 1)]
      rw [range_shift_map (fun i => backoffDelay b rand i) n attempt]

/-- The retry loop when attempts `attempt ≤ i < k` fail and attempt `k`
succeeds within the remaining budget: it returns the success value after
sleeping `k - attempt` times. -/
theorem retryFrom_succeeds {E A : Type} (op : Nat → Except E A) (b : ℚ)
    (rand : Nat → ℚ) (a : A) :
    ∀ (n attempt k : Nat), attempt ≤ k → k < attempt + (n + 1) →
      (∀ i, attempt ≤ i → i < k → ∃ e, op i = .error e) → op k = .ok a →
      retryFrom op b rand attempt (n + 1) =
        (.success a,
          (List.range (k - attempt)).map (fun j => backoffDelay b rand (attempt + j))) := by
  intro n
  induction n with
  | zero =>
      intro attempt k hle hlt _hfail hok
      have hk : attempt = k := by omega
      subst hk
      rw [retryFrom_step_ok op b rand attempt 0 a hok]
      simp
  | succ n ih =>
      intro attempt k hle hlt hfail hok
      by_cases heq : attempt = k
      · subst heq
        rw [retryFrom_step_ok op b rand attempt (n + 1) a hok]
        simp
      · have hlt' : attempt < k := by omega
        obtain ⟨e, he⟩ := hfail attempt le_rfl hlt'
        rw [retryFrom_step_err op b rand attempt (n + 1) e he (Nat.succ_ne_zero n)]
        rw [ih (attempt + 1) k (by omega) (by omega)
          (fun i h1 h2 => hfail i (by omega) h2) hok]
        have hconv : k - attempt = (k - (attempt + 1)) + 1 := by omega
        rw [hconv, range_shift_map (fun i => backoffDelay b rand i) (k - (attempt + 1)) attempt]

/-- **C8.** (i) An operation failing on attempts `1..k-1` and succeeding on
attempt `k ≤ maxRetries` returns the success value, having slept once after
each of the `k - 1` failed attempts.  (ii) An operation failing on every
attempt exhausts all `maxRetries` attempts and fails with the
retry-exhausted error, having slept only after the first `maxRetries - 1`
attempts — never after the final one.  (iii) Each sleep after failed
attempt `i` lasts `baseDelay * 2^(i-1) * jitter` with the jitter factor in
`[0.5, 1)` whenever the random draw is in `[0, 1)`. -/
theorem C8_retryOperation_spec :
    (∀ (E A : Type) (op : Nat → Except E A) (m k : Nat) (a : A) (b : ℚ)
        (rand : Nat → ℚ),
      1 ≤ k → k ≤ m → (∀ i, 1 ≤ i → i < k → ∃ e, op i = .error e) → op k = .ok a →
      retryOperation op m b rand =
        (.success a, (List.range (k - 1)).map (fun j => backoffDelay b rand (1 + j)))) ∧
    (∀ (E A : Type) (op : Nat → Except E A) (m : Nat) (b : ℚ) (rand : Nat → ℚ),
      (∀ i, ∃ e, op i = .error e) →
      retryOperation op m b rand =
        (.exhausted, (List.range (m - 1)).map (fun j => backoffDelay b rand (1 + j)))) ∧
    (∀ (b : ℚ) (rand : Nat → ℚ) (i : Nat), 0 < b → 0 ≤ rand i → rand i < 1 →
      b * 2 ^ (i - 1) / 2 ≤ backoffDelay b rand i ∧
      backoffDelay b rand i < b * 2 ^ (i - 1)) := by
  refine ⟨fun E A op m k a b rand h1 hkm hfail hok => ?_,
    fun E A op m b rand hfail => ?_, fun b rand i hb h0 h1 => ?_⟩
  · have hm : m = (m - 1) + 1 := by omega
    rw [retryOperation, hm]
    exact retryFrom_succeeds op b rand a (m - 1) 1 k h1 (by omega)
      (fun i hi1 hi2 => hfail i hi1 hi2) hok
  · cases m with
    | zero => rfl
    | succ mm =>
        rw [retryOperation]
        exact retryFrom_all_fail op b rand hfail mm 1
  · have hp : (0 : ℚ) < b * 2 ^ (i - 1) := by positivity
    unfold backoffDelay
    constructor
    · nlinarith
    · nlinarith

/-- An operation that fails twice, then succeeds. -/
def opThirdTime : Nat → Except String Nat :=
  fun i => if i ≤ 2 then .error "transient" else .ok 42

/-- An operation that always fails. -/
def opAlwaysFail : Nat → Except String Nat :=
  fun _ => .error "down"

/-- A deterministic random source drawing `0` (jitter factor `0.5`). -/
def randZero : Nat → ℚ := fun _ => 0

/-- Witness for C8 with `maxRetries = 3`, `baseDelay = 1000`: fail-fail-ok
returns `42` with sleeps `[500, 1000]`; always-fail exhausts with the same
two sleeps and no third. -/
theorem C8_retryOperation_spec_witness :
    retryOperation opThirdTime 3 1000 randZero = (.success 42, [500, 1000]) ∧
    retryOperation opAlwaysFail 3 1000 randZero = (.exhausted, [500, 1000]) ∧
    (500 : ℚ) ≤ backoffDelay 1000 randZero 1 ∧ backoffDelay 1000 randZero 1 < 1000 := by
  refine ⟨?_, ?_, ?_⟩
  · have h := C8_retryOperation_spec.1 String Nat opThirdTime 3 3 42 1000 randZero
      (by norm_num) (by norm_num)
      (fun i h1 h2 => ⟨"transient", by simp [opThirdTime, show i ≤ 2 by omega]⟩)
      (by simp [opThirdTime])
    rw [h]
    norm_num [backoffDelay, randZero, List.range_succ]
  · have h := C8_retryOperation_spec.2.1 String Nat opAlwaysFail 3 1000 randZero
      (fun i => ⟨"down", rfl⟩)
    rw [h]
    norm_num [backoffDelay, randZero, List.range_succ]
  · have h := C8_retryOperation_spec.2.2 1000 randZero 1
      (by norm_num) (by norm_num [randZero]) (by norm_num [randZero])
    have h1 := h.1
    have h2 := h.2
    norm_num at h1 h2
    exact ⟨h1, h2⟩

/-! ## Claim C7: `parseTransactionDate` (corrected)

Supporting lemmas about the JavaScript-runtime models on digit strings. -/

/-- A decimal digit is not whitespace. -/
theorem digit_not_jsws (c : Char) (h : c.isDigit = true) : jsWhitespace c = false := by
  rcases hw : jsWhitespace c
  · rfl
  · exfalso
    simp only [jsWhitespace, Bool.or_eq_true, decide_eq_true_eq] at hw
    rcases hw with h1|h1|h1|h1|h1|h1|h1|h1|h1|h1|h1|h1|h1|h1|h1|h1|h1|h1|h1|h1|h1|h1|h1|h1|h1 <;>
      (subst h1; exact absurd h (by decide))

/-- A decimal digit is distinct from any non-digit character. -/
theorem digit_ne (c x : Char) (h : c.isDigit = true) (hx : x.isDigit = false) :
    c ≠ x := by
  intro he
  subst he
  rw [h] at hx
  cases hx

/-- A decimal digit is not the minus sign. -/
theorem digit_ne_minus (c : Char) (h : c.isDigit = true) : c ≠ '-' :=
  digit_ne c '-' h (by decide)

/-- A decimal digit is not the plus sign. -/
theorem digit_ne_plus (c : Char) (h : c.isDigit = true) : c ≠ '+' :=
  digit_ne c '+' h (by decide)

/-- `takeWhile` keeps a list every element of which satisfies the
predicate. -/
theorem takeWhile_all_eq {p : Char → Bool} :
    ∀ l : List Char, l.all p = true → l.takeWhile p = l := by
  intro l hl
  induction l with
  | nil => rfl
  | cons c t ih =>
      simp only [List.all_cons, Bool.and_eq_true] at hl
      simp [List.takeWhile_cons, hl.1, ih hl.2]

/-- `digitsPrefixVal` on an all-digit list reads the whole list. -/
theorem digitsPrefixVal_all (l : List Char) (hne : l ≠ [])
    (hd : l.all Char.isDigit = true) :
    digitsPrefixVal l = some (l.foldl (fun a c => a * 10 + (c.toNat - 48)) 0) := by
  simp only [digitsPrefixVal, takeWhile_all_eq l hd]
  simp [List.isEmpty_iff, hne]

/-- `parseInt` on a non-empty all-digit string returns its value. -/
theorem jsParseIntOpt_digits (u : String) (hne : u.data ≠ [])
    (hd : u.data.all Char.isDigit = true) :
    jsParseIntOpt u = some (strVal u : Int) := by
  cases hu : u.data with
  | nil => exact absurd hu hne
  | cons c t =>
      rw [hu] at hd
      have hd' := hd
      simp only [List.all_cons, Bool.and_eq_true] at hd'
      have hws : jsWhitespace c = false := digit_not_jsws c hd'.1
      simp only [jsParseIntOpt, hu, List.dropWhile_cons, hws]
      simp only [Bool.false_eq_true, if_false]
      rw [if_neg (digit_ne_minus c hd'.1), if_neg (digit_ne_plus c hd'.1)]
      rw [digitsPrefixVal_all (c :: t) (by simp) hd]
      simp [strVal, hu]

/-- `dropWhile jsWhitespace` keeps an all-digit list intact. -/
theorem dropWhile_ws_digits (l : List Char) (hd : l.all Char.isDigit = true) :
    l.dropWhile jsWhitespace = l := by
  cases l with
  | nil => rfl
  | cons c t =>
      simp only [List.all_cons, Bool.and_eq_true] at hd
      simp [List.dropWhile_cons, digit_not_jsws c hd.1]

/-- `trim` keeps an all-digit string intact. -/
theorem strTrim_digits (u : String) (hd : u.data.all Char.isDigit = true) :
    strTrim u = u := by
  simp only [strTrim]
  rw [dropWhile_ws_digits _ hd, dropWhile_ws_digits _ (by simpa using hd)]
  simp

/-- `dropWhile` empties a list every element of which satisfies the
predicate. -/
theorem dropWhile_all_eq_nil {p : Char → Bool} :
    ∀ l : List Char, l.all p = true → l.dropWhile p = [] := by
  intro l hl
  induction l with
  | nil => rfl
  | cons c t ih =>
      simp only [List.all_cons, Bool.and_eq_true] at hl
      simp [List.dropWhile_cons, hl.1, ih hl.2]

/-- Weakening `List.all` along a pointwise implication. -/
theorem all_mono {p q : Char → Bool} (l : List Char) (hl : l.all p = true)
    (himp : ∀ c, p c = true → q c = true) : l.all q = true := by
  rw [List.all_eq_true] at hl ⊢
  exact fun c hc => himp c (hl c hc)

/-- A decimal digit is not an exponent marker. -/
theorem digit_not_expMarker (c : Char) (h : c.isDigit = true) :
    (!(c = 'e' || c = 'E')) = true := by
  simp only [Bool.not_eq_eq_eq_not, Bool.not_true, Bool.or_eq_false_iff,
    decide_eq_false_iff_not]
  exact ⟨digit_ne c 'e' h (by decide), digit_ne c 'E' h (by decide)⟩

/-- A non-empty all-digit list never carries a radix prefix. -/
theorem startsRadix_digits (cs : List Char) (tags : List Char)
    (hd : cs.all Char.isDigit = true)
    (htags : tags.all (fun ch => !ch.isDigit) = true) :
    startsRadix cs tags = false := by
  match cs with
  | [] => rfl
  | [c] => rfl
  | c1 :: c2 :: t =>
      simp only [startsRadix]
      have hc2 : c2.isDigit = true := by
        simp only [List.all_cons, Bool.and_eq_true] at hd
        exact hd.2.1
      have hcon : tags.contains c2 = false := by
        rcases hc : tags.contains c2
        · rfl
        · exfalso
          have hmem : c2 ∈ tags := by
            rw [List.contains_iff_exists_mem_beq] at hc
            obtain ⟨x, hx, hbeq⟩ := hc
            rw [show c2 = x from beq_iff_eq.mp hbeq] at hc2 ⊢
            exact hx
          rw [List.all_eq_true] at htags
          have := htags c2 hmem
          rw [hc2] at this
          cases this
      rw [hcon, Bool.and_false]

/-- `parseDecCore` on a non-empty all-digit list reads the whole list. -/
theorem parseDecCore_digits (cs : List Char) (hne : cs ≠ [])
    (hd : cs.all Char.isDigit = true) :
    parseDecCore cs = some (digitsVal cs, 0) := by
  simp only [parseDecCore, takeWhile_all_eq cs hd, dropWhile_all_eq_nil cs hd]
  simp [List.isEmpty_iff, hne]

/-- `Number` on a non-empty all-digit string returns its value (with
exponent 0). -/
theorem jsNumberSci_digits (u : String) (hne : u.data ≠ [])
    (hd : u.data.all Char.isDigit = true) :
    jsNumberSci u = some ((strVal u : Int), 0) := by
  rw [jsNumberSci, strTrim_digits u hd]
  cases hu : u.data with
  | nil => exact absurd hu hne
  | cons c t =>
      rw [hu] at hd
      have hd' := hd
      simp only [List.all_cons, Bool.and_eq_true] at hd'
      have hexp : (c :: t).all (fun x => !(x = 'e' || x = 'E')) = true :=
        all_mono _ hd digit_not_expMarker
      simp only [parseJsNumber]
      rw [startsRadix_digits _ _ hd (by decide), startsRadix_digits _ _ hd (by decide),
        startsRadix_digits _ _ hd (by decide)]
      simp only [Bool.false_eq_true, if_false, parseSignedDec]
      rw [if_neg (digit_ne_plus c hd'.1), if_neg (digit_ne_minus c hd'.1)]
      simp only [parseDecWithExp, takeWhile_all_eq _ hexp, dropWhile_all_eq_nil _ hexp]
      rw [parseDecCore_digits _ (by simp) hd]
      simp [strVal, digitsVal, hu]

/-- The digit-fold is bounded by `10^length` (relative to its
accumulator). -/
theorem digitsFold_lt :
    ∀ (l : List Char) (a : Nat), l.all Char.isDigit = true →
      l.foldl (fun a c => a * 10 + (c.toNat - 48)) a < (a + 1) * 10 ^ l.length := by
  intro l
  induction l with
  | nil =>
      intro a _
      simp only [List.foldl_nil, List.length_nil, pow_zero, mul_one]
      exact Nat.lt_succ_self a
  | cons c t ih =>
      intro a hall
      simp only [List.all_cons, Bool.and_eq_true] at hall
      have hc : c.toNat ≤ 57 := by
        have h1 := hall.1
        simp only [Char.isDigit, Bool.and_eq_true, decide_eq_true_eq] at h1
        exact h1.2
      calc t.foldl (fun a c => a * 10 + (c.toNat - 48)) (a * 10 + (c.toNat - 48))
          < (a * 10 + (c.toNat - 48) + 1) * 10 ^ t.length := ih _ hall.2
        _ ≤ ((a + 1) * 10) * 10 ^ t.length := Nat.mul_le_mul_right _ (by omega)
        _ = (a + 1) * 10 ^ (t.length + 1) := by ring

/-- An all-digit list's value is below `10^length`. -/
theorem digitsVal_lt (l : List Char) (hd : l.all Char.isDigit = true) :
    digitsVal l < 10 ^ l.length := by
  have h := digitsFold_lt l 0 hd
  rw [Nat.zero_add, Nat.one_mul] at h
  exact h

/-- `new Date(n * 1000)` for a natural `n < 10^10` (any value a
10-digit string can denote) is the valid instant `n * 1000`. -/
theorem dateFromSci_nat (n : Nat) (hn : n < 10 ^ 10) :
    dateFromSci (n : Int) 0 = .instant ((n : Int) * 1000) := by
  have hn' : n < 10000000000 := by norm_num at hn; exact hn
  by_cases h0 : (n : Int) = 0
  · have hz : n = 0 := by exact_mod_cast h0
    subst hz
    norm_num [dateFromSci]
  · unfold dateFromSci
    rw [if_neg h0, if_pos (by norm_num : (0 : Int) ≤ 0 + 3),
      if_neg (by norm_num : ¬(15 : Int) < 0 + 3)]
    have h3 : ((0 : Int) + 3).toNat = 3 := rfl
    rw [h3, show (10 : Int) ^ 3 = 1000 from by norm_num]
    rw [if_neg]
    simp only [intAbs]
    have hnn : ¬((n : Int) * 1000 < 0) := by
      simp only [not_lt]
      positivity
    rw [if_neg hnn]
    omega

/-- A slice of an all-digit string is all digits. -/
theorem strSlice_all_digits (u : String) (a b : Nat)
    (hd : u.data.all Char.isDigit = true) :
    (strSlice u a b).data.all Char.isDigit = true := by
  simp only [strSlice, strTake, strDrop]
  rw [List.all_eq_true] at hd ⊢
  intro x hx
  exact hd x (List.drop_subset a u.data (List.take_subset _ _ hx))

/-- A slice `[a, b)` with `a < b` of a string longer than `a` is
non-empty. -/
theorem strSlice_ne_nil (u : String) (a b : Nat) (hab : a < b)
    (ha : a < u.data.length) : (strSlice u a b).data ≠ [] := by
  simp only [strSlice, strTake, strDrop]
  intro h
  have hl := congrArg List.length h
  simp only [List.length_take, List.length_drop, List.length_nil] at hl
  omega

/-- Every month has at most 31 days. -/
theorem daysInMonth_le (y mo : Nat) : daysInMonth y mo ≤ 31 := by
  unfold daysInMonth
  split
  · split <;> omega
  · split <;> omega

/-- `isoDateEpochMs` on digit slices denoting an existing calendar date
and time of day. -/
theorem isoDateEpochMs_some (ys ms ds hs mins ss : String) (y mo d h mi sec : Nat)
    (hys : isDigitStr ys = true) (hms : isDigitStr ms = true)
    (hds : isDigitStr ds = true) (hhs : isDigitStr hs = true)
    (hmins : isDigitStr mins = true) (hss : isDigitStr ss = true)
    (hvys : strVal ys = y) (hvms : strVal ms = mo) (hvds : strVal ds = d)
    (hvhs : strVal hs = h) (hvmins : strVal mins = mi) (hvss : strVal ss = sec)
    (hy1 : 1970 ≤ y) (hmo1 : 1 ≤ mo) (hmo2 : mo ≤ 12)
    (hd1 : 1 ≤ d) (hd2 : d ≤ daysInMonth y mo)
    (hh : h ≤ 23) (hmi : mi ≤ 59) (hsec : sec ≤ 59) :
    isoDateEpochMs ys ms ds hs mins ss =
      some ((((epochDays y mo d * 86400 + h * 3600 + mi * 60 + sec : Nat) : Int)
        - 10800) * 1000) := by
  simp only [isoDateEpochMs, hys, hms, hds, hhs, hmins, hss, hvys, hvms, hvds,
    hvhs, hvmins, hvss, Bool.true_and]
  rw [if_pos trivial, if_pos]
  simp only [Bool.and_eq_true, decide_eq_true_eq]
  generalize daysInMonth y mo = dm at hd2
  omega

/-- `isoDateEpochMs` rejects digit slices whose day exceeds the length of
the month (the `Invalid Date` case of V8's ISO parser). -/
theorem isoDateEpochMs_none_day (ys ms ds hs mins ss : String)
    (y mo d : Nat)
    (hvys : strVal ys = y) (hvms : strVal ms = mo) (hvds : strVal ds = d)
    (hd2 : daysInMonth y mo < d) :
    isoDateEpochMs ys ms ds hs mins ss = none := by
  simp only [isoDateEpochMs, hvys, hvms, hvds]
  split
  · rw [if_neg]
    simp only [Bool.and_eq_true, decide_eq_true_eq]
    generalize daysInMonth y mo = dm at hd2 ⊢
    omega
  · rfl

/-- A non-empty all-digit string passes `isDigitStr`. -/
theorem isDigitStr_of (u : String) (hne : u.data ≠ [])
    (hall : u.data.all Char.isDigit = true) : isDigitStr u = true := by
  unfold isDigitStr
  rw [hall]
  cases hu : u.data with
  | nil => exact absurd hu hne
  | cons c t => rfl

/-- The 14-character branch of `parseTransactionDate` when every component
passes the source's `parseInt` range validation: the result is decided by
the `Date` constructor on the assembled ISO string. -/
theorem parseTransactionDate_14_reduce (s : String) (y mo d h mi sec : Nat)
    (hne : s ≠ "") (hlen : (strTrim s).length = 14)
    (hall : (strTrim s).data.all Char.isDigit = true)
    (hv04 : strVal (strSlice (strTrim s) 0 4) = y) (hy1 : 2020 ≤ y) (hy2 : y ≤ 2030)
    (hv46 : strVal (strSlice (strTrim s) 4 6) = mo) (hmo1 : 1 ≤ mo) (hmo2 : mo ≤ 12)
    (hv68 : strVal (strSlice (strTrim s) 6 8) = d) (hd1 : 1 ≤ d) (hd2 : d ≤ 31)
    (hv810 : strVal (strSlice (strTrim s) 8 10) = h) (hh : h ≤ 23)
    (hv1012 : strVal (strSlice (strTrim s) 10 12) = mi) (hmi : mi ≤ 59)
    (hv1214 : strVal (strSlice (strTrim s) 12 14) = sec) (hsec : sec ≤ 59) :
    parseTransactionDate s =
      (match isoDateEpochMs (strSlice (strTrim s) 0 4) (strSlice (strTrim s) 4 6)
          (strSlice (strTrim s) 6 8) (strSlice (strTrim s) 8 10)
          (strSlice (strTrim s) 10 12) (strSlice (strTrim s) 12 14) with
        | some n => JsDate.instant n
        | none => JsDate.currentTime) := by
  have hdl : (strTrim s).data.length = 14 := hlen
  have h04a := strSlice_all_digits (strTrim s) 0 4 hall
  have h46a := strSlice_all_digits (strTrim s) 4 6 hall
  have h68a := strSlice_all_digits (strTrim s) 6 8 hall
  have h810a := strSlice_all_digits (strTrim s) 8 10 hall
  have h1012a := strSlice_all_digits (strTrim s) 10 12 hall
  have h1214a := strSlice_all_digits (strTrim s) 12 14 hall
  have h04n := strSlice_ne_nil (strTrim s) 0 4 (by omega) (by omega)
  have h46n := strSlice_ne_nil (strTrim s) 4 6 (by omega) (by omega)
  have h68n := strSlice_ne_nil (strTrim s) 6 8 (by omega) (by omega)
  have h810n := strSlice_ne_nil (strTrim s) 8 10 (by omega) (by omega)
  have h1012n := strSlice_ne_nil (strTrim s) 10 12 (by omega) (by omega)
  have h1214n := strSlice_ne_nil (strTrim s) 12 14 (by omega) (by omega)
  have e04 : jsParseIntOpt (strSlice (strTrim s) 0 4) = some (y : Int) := by
    rw [jsParseIntOpt_digits _ h04n h04a, hv04]
  have e46 : jsParseIntOpt (strSlice (strTrim s) 4 6) = some (mo : Int) := by
    rw [jsParseIntOpt_digits _ h46n h46a, hv46]
  have e68 : jsParseIntOpt (strSlice (strTrim s) 6 8) = some (d : Int) := by
    rw [jsParseIntOpt_digits _ h68n h68a, hv68]
  have e810 : jsParseIntOpt (strSlice (strTrim s) 8 10) = some (h : Int) := by
    rw [jsParseIntOpt_digits _ h810n h810a, hv810]
  have e1012 : jsParseIntOpt (strSlice (strTrim s) 10 12) = some (mi : Int) := by
    rw [jsParseIntOpt_digits _ h1012n h1012a, hv1012]
  have e1214 : jsParseIntOpt (strSlice (strTrim s) 12 14) = some (sec : Int) := by
    rw [jsParseIntOpt_digits _ h1214n h1214a, hv1214]
  simp only [parseTransactionDate]
  rw [if_neg hne, if_pos hlen]
  rw [e04, e46, e68, e810, e1012, e1214]
  rw [if_neg]
  simp only [outOfRange, Bool.or_eq_true, decide_eq_true_eq]
  omega

/-- **C7 counterexample.** `"20250231120000"` is a 14-character input
every component of which passes the source's validation (year 2025, month
2, day 31 ≤ 31, hour 12, minute 0, second 0), yet the V8 `Date`
constructor rejects February 31, so the function returns the current-time
fallback instead of the instant the claim promises. -/
theorem C7_counterexample :
    parseTransactionDate "20250231120000" = .currentTime ∧
    jsParseIntOpt (strSlice "20250231120000" 0 4) = some 2025 ∧
    jsParseIntOpt (strSlice "20250231120000" 4 6) = some 2 ∧
    jsParseIntOpt (strSlice "20250231120000" 6 8) = some 31 ∧
    jsParseIntOpt (strSlice "20250231120000" 8 10) = some 12 ∧
    jsParseIntOpt (strSlice "20250231120000" 10 12) = some 0 ∧
    jsParseIntOpt (strSlice "20250231120000" 12 14) = some 0 := by
  refine ⟨by decide, by decide, by decide, by decide, by decide, by decide, by decide⟩

/-- The runtime treats `\f` (and the rest of the JS whitespace set) as
trimmable, so `"\f1717243200"` reaches the Unix branch. -/
theorem parseTransactionDate_formfeed_trimmed :
    strTrim "\x0c1717243200" = "1717243200" := by decide

/-- A fractional 10-character numeric string: `Number("12.3456789")`
is `12.3456789`, and `new Date(12345.6789)` truncates to the instant
`12345` ms — returned, not replaced by the fallback. -/
theorem parseTransactionDate_fractional :
    parseTransactionDate "12.3456789" = .instant 12345 := by decide

/-- A hex 10-character numeric string: `Number("0x12345678")` is
`305419896`, giving the instant `305419896000` ms. -/
theorem parseTransactionDate_hex :
    parseTransactionDate "0x12345678" = .instant 305419896000 := by decide

/-- A 10-character numeric string whose value exceeds the `Date` range:
`new Date(9.9e99 * 1000)` is an Invalid Date, which the Unix branch
returns unchecked (still not the current-time fallback). -/
theorem parseTransactionDate_huge :
    parseTransactionDate "9.9e+00099" = .invalidDate := by decide

/-- **C7 amended.** `parseTransactionDate` is total and never propagates a
failure: (i) a 14-character digit input whose components pass validation
(year 2020–2030, month 1–12, day 1–31, hour 0–23, minute/second 0–59)
**and denote an existing calendar date** yields that instant interpreted in
UTC+3; (ii) a component-valid input that is not a real calendar date
(e.g. February 31) falls back to the current wall-clock time; (iii) a
14-character input failing the component validation (the source's throw
condition holds) falls back to the current wall-clock time; (iv)
`"20250601120000"` yields 2025-06-01T12:00:00+03:00 and (v)
`"1717243200"` the corresponding epoch instant; (vi) a 10-character
all-digit input yields the corresponding Unix epoch-seconds instant;
(vii) a 10-character input that `Number` maps to `NaN` (a non-numeric
Unix value), and (viii) every input of any other trimmed length, and (ix)
the spec's example `"bad"`, yield the current wall-clock time as a
fallback without raising.  (Numeric 10-character inputs of other literal
shapes — fractional, exponent, hex — yield the corresponding
truncated-millisecond instant, or an Invalid Date object beyond the
`Date` range, and are likewise returned without raising; see the
examples above.) -/
theorem C7_parse_transaction_date_spec :
    (∀ (s : String) (y mo d h mi sec : Nat),
      s ≠ "" → (strTrim s).length = 14 →
      (strTrim s).data.all Char.isDigit = true →
      strVal (strSlice (strTrim s) 0 4) = y → 2020 ≤ y → y ≤ 2030 →
      strVal (strSlice (strTrim s) 4 6) = mo → 1 ≤ mo → mo ≤ 12 →
      strVal (strSlice (strTrim s) 6 8) = d → 1 ≤ d → d ≤ daysInMonth y mo →
      strVal (strSlice (strTrim s) 8 10) = h → h ≤ 23 →
      strVal (strSlice (strTrim s) 10 12) = mi → mi ≤ 59 →
      strVal (strSlice (strTrim s) 12 14) = sec → sec ≤ 59 →
      parseTransactionDate s =
        .instant ((((epochDays y mo d * 86400 + h * 3600 + mi * 60 + sec : Nat) : Int)
          - 10800) * 1000)) ∧
    (∀ (s : String) (y mo d h mi sec : Nat),
      s ≠ "" → (strTrim s).length = 14 →
      (strTrim s).data.all Char.isDigit = true →
      strVal (strSlice (strTrim s) 0 4) = y → 2020 ≤ y → y ≤ 2030 →
      strVal (strSlice (strTrim s) 4 6) = mo → 1 ≤ mo → mo ≤ 12 →
      strVal (strSlice (strTrim s) 6 8) = d → 1 ≤ d → d ≤ 31 →
      strVal (strSlice (strTrim s) 8 10) = h → h ≤ 23 →
      strVal (strSlice (strTrim s) 10 12) = mi → mi ≤ 59 →
      strVal (strSlice (strTrim s) 12 14) = sec → sec ≤ 59 →
      daysInMonth y mo < d →
      parseTransactionDate s = .currentTime) ∧
    (∀ s : String, s ≠ "" → (strTrim s).length = 14 →
      (outOfRange (jsParseIntOpt (strSlice (strTrim s) 0 4)) 2020 2030 ||
        outOfRange (jsParseIntOpt (strSlice (strTrim s) 4 6)) 1 12 ||
        outOfRange (jsParseIntOpt (strSlice (strTrim s) 6 8)) 1 31 ||
        outOfRange (jsParseIntOpt (strSlice (strTrim s) 8 10)) 0 23 ||
        outOfRange (jsParseIntOpt (strSlice (strTrim s) 10 12)) 0 59 ||
        outOfRange (jsParseIntOpt (strSlice (strTrim s) 12 14)) 0 59) = true →
      parseTransactionDate s = .currentTime) ∧
    parseTransactionDate "20250601120000" = .instant 1748768400000 ∧
    parseTransactionDate "1717243200" = .instant 1717243200000 ∧
    (∀ s : String, s ≠ "" → (strTrim s).length = 10 →
      (strTrim s).data.all Char.isDigit = true →
      parseTransactionDate s = .instant ((strVal (strTrim s) : Int) * 1000)) ∧
    (∀ s : String, s ≠ "" → (strTrim s).length = 10 →
      jsNumberSci (strTrim s) = none →
      parseTransactionDate s = .currentTime) ∧
    (∀ s : String, (strTrim s).length ≠ 14 → (strTrim s).length ≠ 10 →
      parseTransactionDate s = .currentTime) ∧
    parseTransactionDate "bad" = .currentTime := by
  refine ⟨?_, ?_, ?_, by decide, by decide, ?_, ?_, ?_, by decide⟩
  · intro s y mo d h mi sec hne hlen hall hv04 hy1 hy2 hv46 hmo1 hmo2 hv68 hd1
      hd2 hv810 hh hv1012 hmi hv1214 hsec
    have hdl : (strTrim s).data.length = 14 := hlen
    rw [parseTransactionDate_14_reduce s y mo d h mi sec hne hlen hall hv04 hy1
      hy2 hv46 hmo1 hmo2 hv68 hd1 (le_trans hd2 (daysInMonth_le y mo)) hv810 hh
      hv1012 hmi hv1214 hsec]
    rw [isoDateEpochMs_some _ _ _ _ _ _ y mo d h mi sec
      (isDigitStr_of _ (strSlice_ne_nil _ 0 4 (by omega) (by omega))
        (strSlice_all_digits _ 0 4 hall))
      (isDigitStr_of _ (strSlice_ne_nil _ 4 6 (by omega) (by omega))
        (strSlice_all_digits _ 4 6 hall))
      (isDigitStr_of _ (strSlice_ne_nil _ 6 8 (by omega) (by omega))
        (strSlice_all_digits _ 6 8 hall))
      (isDigitStr_of _ (strSlice_ne_nil _ 8 10 (by omega) (by omega))
        (strSlice_all_digits _ 8 10 hall))
      (isDigitStr_of _ (strSlice_ne_nil _ 10 12 (by omega) (by omega))
        (strSlice_all_digits _ 10 12 hall))
      (isDigitStr_of _ (strSlice_ne_nil _ 12 14 (by omega) (by omega))
        (strSlice_all_digits _ 12 14 hall))
      hv04 hv46 hv68 hv810 hv1012 hv1214 (by omega) hmo1 hmo2 hd1 hd2 hh hmi hsec]
  · intro s y mo d h mi sec hne hlen hall hv04 hy1 hy2 hv46 hmo1 hmo2 hv68 hd1
      hd2 hv810 hh hv1012 hmi hv1214 hsec hday
    rw [parseTransactionDate_14_reduce s y mo d h mi sec hne hlen hall hv04 hy1
      hy2 hv46 hmo1 hmo2 hv68 hd1 hd2 hv810 hh hv1012 hmi hv1214 hsec]
    rw [isoDateEpochMs_none_day _ _ _ _ _ _ y mo d hv04 hv46 hv68 hday]
  · intro s hne hlen hcond
    simp only [parseTransactionDate]
    rw [if_neg hne, if_pos hlen, if_pos hcond]
  · intro s hne hlen hall
    have hdne : (strTrim s).data ≠ [] := by
      intro hd
      have : (strTrim s).data.length = 10 := hlen
      rw [hd] at this
      simp at this
    simp only [parseTransactionDate]
    rw [if_neg hne, if_neg (by omega : ¬(strTrim s).length = 14), if_pos hlen]
    rw [jsNumberSci_digits (strTrim s) hdne hall]
    have hlt : strVal (strTrim s) < 10 ^ 10 := by
      have hb := digitsVal_lt (strTrim s).data hall
      have hl : (strTrim s).data.length = 10 := hlen
      rw [hl] at hb
      exact hb
    exact dateFromSci_nat (strVal (strTrim s)) hlt
  · intro s hne hlen hnone
    simp only [parseTransactionDate]
    rw [if_neg hne, if_neg (by omega : ¬(strTrim s).length = 14), if_pos hlen, hnone]
  · intro s h14 h10
    by_cases hne : s = ""
    · subst hne; rfl
    · simp only [parseTransactionDate]
      rw [if_neg hne, if_neg h14, if_neg h10]

/-- Witness for C7's amended theorem: clause (i) at the leap day
`"20240229120000"` (2024-02-29T12:00:00+03:00 = epoch 1709197200),
clause (ii) at `"20250231120000"`, clause (iii) at `"20350101120000"`
(year out of range), clause (vi) at `"\f1717243200"` (the form feed is
JS-trimmable), and clause (vii) at `"abcdefghij"`. -/
theorem C7_parse_transaction_date_spec_witness :
    parseTransactionDate "20240229120000" = .instant 1709197200000 ∧
    parseTransactionDate "20250231120000" = .currentTime ∧
    parseTransactionDate "20350101120000" = .currentTime ∧
    parseTransactionDate "\x0c1717243200" = .instant 1717243200000 ∧
    parseTransactionDate "abcdefghij" = .currentTime := by
  refine ⟨?_, ?_, ?_, ?_, ?_⟩
  · have h := C7_parse_transaction_date_spec.1 "20240229120000" 2024 2 29 12 0 0
      (by decide) (by decide) (by decide) (by decide) (by decide) (by decide)
      (by decide) (by decide) (by decide) (by decide) (by decide) (by decide)
      (by decide) (by decide) (by decide) (by decide) (by decide) (by decide)
    rw [h]
    decide
  · exact C7_parse_transaction_date_spec.2.1 "20250231120000" 2025 2 31 12 0 0
      (by decide) (by decide) (by decide) (by decide) (by decide) (by decide)
      (by decide) (by decide) (by decide) (by decide) (by decide) (by decide)
      (by decide) (by decide) (by decide) (by decide) (by decide) (by decide)
      (by decide)
  · exact C7_parse_transaction_date_spec.2.2.1 "20350101120000"
      (by decide) (by decide) (by decide)
  · have h := C7_parse_transaction_date_spec.2.2.2.2.2.1 "\x0c1717243200"
      (by decide) (by decide) (by decide)
    rw [h]
    decide
  · exact C7_parse_transaction_date_spec.2.2.2.2.2.2.1 "abcdefghij"
      (by decide) (by decide) (by decide)

end Mpesa
